import Mathlib

/-!
Verification of the GenzPlanner client core against its specification.

The definitions below are a shallow embedding of the JavaScript source:

* the habit streak state machine (`toggleHabit` in src/app.js, lines 516-537);
* the seeding policy (the App useEffect in src/app.js, lines 1158-1167);
* the derived task lists (TaskManagerView in src/unnamed/part_000, lines
  345-346, and Dashboard top3Priorities in src/app.js, lines 756-759);
* the reflection merge-save flow (handleSaveReflection in
  src/unnamed/part_000, lines 234-247);
* the collection binding write guard (addData in src/app.js, lines 184-188);
* the subscription lifecycle of the collection mirror
  (useFirestoreCollection in src/app.js, lines 144-182).

JavaScript numbers that hold integers are modelled as Int or Nat, calendar
date strings as String, and Array.prototype.sort with a comparator cmp as a
stable comparison sort (stable since ES2019), realized by Mathlib's stable
List.insertionSort over the relation fun a b => cmp a b <= 0.
-/

/-- Mirror of the fields of a habit document that the toggle transition of
src/app.js reads or writes: streak, lastChecked and checkedToday.  The
streak is an Int because the store places no lower bound on the number a
document may hold. -/
structure Habit where
  streak : Int
  lastChecked : String
  checkedToday : Bool
deriving DecidableEq, Repr

/-- Shallow embedding of toggleHabit (src/app.js lines 516-537).  The JS
code computes newCheckedToday = !habit.checkedToday and then
  - on check: newStreak = (habit.lastChecked === today) ? habit.streak
    : habit.streak + 1;
  - on uncheck: if habit.lastChecked === today then
    newStreak = habit.streak > 0 ? habit.streak - 1 : 0, else the streak is
    left unchanged;
and finally writes checkedToday, streak and lastChecked (set to today) in
one merge update. -/
def toggleHabit (today : String) (h : Habit) : Habit :=
  let newCheckedToday := !h.checkedToday
  let newStreak :=
    if newCheckedToday then
      if h.lastChecked = today then h.streak else h.streak + 1
    else
      if h.lastChecked = today then
        (if h.streak > 0 then h.streak - 1 else 0)
      else
        h.streak
  { streak := newStreak, lastChecked := today, checkedToday := newCheckedToday }

/-- Sequence of toggle transitions, one per local date observed at the time
of the click; models a user clicking the habit repeatedly over time. -/
def toggleSeq (dates : List String) (h : Habit) : Habit :=
  dates.foldl (fun acc d => toggleHabit d acc) h

/-- C1: toggling from unchecked sets checkedToday and lastChecked := today and
increments the streak exactly when lastChecked was not already today;
toggling from checked clears checkedToday, sets lastChecked := today and
decrements the streak (floored at 0) exactly when lastChecked was today. -/
theorem toggleHabit_spec (h : Habit) (today : String) :
    (h.checkedToday = false →
      (toggleHabit today h).checkedToday = true ∧
      (toggleHabit today h).lastChecked = today ∧
      (h.lastChecked = today → (toggleHabit today h).streak = h.streak) ∧
      (h.lastChecked ≠ today → (toggleHabit today h).streak = h.streak + 1)) ∧
    (h.checkedToday = true →
      (toggleHabit today h).checkedToday = false ∧
      (toggleHabit today h).lastChecked = today ∧
      (h.lastChecked = today →
        (toggleHabit today h).streak = max (h.streak - 1) 0) ∧
      (h.lastChecked ≠ today → (toggleHabit today h).streak = h.streak)) := by
  constructor
  · intro hc
    refine ⟨by simp [toggleHabit, hc], by simp [toggleHabit], ?_, ?_⟩
    · intro hd; simp [toggleHabit, hc, hd]
    · intro hd; simp [toggleHabit, hc, hd]
  · intro hc
    refine ⟨by simp [toggleHabit, hc], by simp [toggleHabit], ?_, ?_⟩
    · intro hd
      by_cases hs : h.streak > 0 <;> simp [toggleHabit, hc, hd, hs] <;> omega
    · intro hd; simp [toggleHabit, hc, hd]

/-- Witness for toggleHabit_spec at concrete habits: checking a habit last
checked yesterday bumps the streak from 5 to 6, and unchecking a habit
already checked today drops it from 5 to 4. -/
theorem toggleHabit_spec_witness :
    (toggleHabit "2026-10-12" ⟨5, "2026-10-11", false⟩).streak = 6 ∧
    (toggleHabit "2026-10-12" ⟨5, "2026-10-12", true⟩).streak = 4 := by
  constructor
  · exact ((toggleHabit_spec ⟨5, "2026-10-11", false⟩ "2026-10-12").1 rfl).2.2.2
      (by decide)
  · have := ((toggleHabit_spec ⟨5, "2026-10-12", true⟩ "2026-10-12").2 rfl).2.2.1 rfl
    rw [this]; decide

/-- C2 counterexample: a habit with streak 1, checked today, does not return
to streak 1 under same-day re-toggling.  Toggling three times yields streak
0 (and so does the two-toggle round trip checked to unchecked to checked
that the claim describes): the uncheck decrements, but the re-check falls
under the lastChecked = today idempotence guard and never re-increments. -/
theorem toggleHabit_roundtrip_counterexample :
    (toggleSeq ["2026-10-12", "2026-10-12", "2026-10-12"]
        ⟨1, "2026-10-12", true⟩).streak ≠ (1 : Int) ∧
    (toggleSeq ["2026-10-12", "2026-10-12"]
        ⟨1, "2026-10-12", true⟩).streak ≠ (1 : Int) := by
  constructor <;> decide

/-- C2 amended: for a habit checked today with lastChecked = today, the
two-toggle round trip (checked to unchecked to checked, the local date held
fixed) yields streak = max (initial - 1) 0 with checkedToday back to true,
and a third toggle yields streak = max (initial - 2) 0 with checkedToday
false; the initial streak is recovered only when it was already 0. -/
theorem toggleHabit_same_day_roundtrip (h : Habit) (today : String)
    (hc : h.checkedToday = true) (hd : h.lastChecked = today) :
    (toggleSeq [today, today] h).streak = max (h.streak - 1) 0 ∧
    (toggleSeq [today, today] h).checkedToday = true ∧
    (toggleSeq [today, today, today] h).streak = max (h.streak - 2) 0 ∧
    (toggleSeq [today, today, today] h).checkedToday = false := by
  have h1 : toggleHabit today h =
      ⟨if h.streak > 0 then h.streak - 1 else 0, today, false⟩ := by
    simp [toggleHabit, hc, hd]
  have h2 : toggleHabit today (toggleHabit today h) =
      ⟨if h.streak > 0 then h.streak - 1 else 0, today, true⟩ := by
    rw [h1]; simp [toggleHabit]
  have h3 : toggleHabit today (toggleHabit today (toggleHabit today h)) =
      ⟨if (if h.streak > 0 then h.streak - 1 else 0) > 0 then
          (if h.streak > 0 then h.streak - 1 else 0) - 1 else 0,
        today, false⟩ := by
    rw [h2]; simp [toggleHabit]
  refine ⟨?_, ?_, ?_, ?_⟩
  · show (toggleHabit today (toggleHabit today h)).streak = _
    rw [h2]
    by_cases hs : h.streak > 0 <;> simp [hs] <;> omega
  · show (toggleHabit today (toggleHabit today h)).checkedToday = true
    rw [h2]
  · show (toggleHabit today (toggleHabit today (toggleHabit today h))).streak = _
    rw [h3]
    by_cases hs : h.streak > 1
    · have hs0 : h.streak > 0 := by omega
      simp only [hs0, if_true]
      have : h.streak - 1 > 0 := by omega
      simp only [this, if_true]
      omega
    · by_cases hs0 : h.streak > 0 <;> simp [hs0] <;> omega
  · show (toggleHabit today (toggleHabit today (toggleHabit today h))).checkedToday = false
    rw [h3]

/-- Witness for toggleHabit_same_day_roundtrip: from streak 5, checked
today, the two-toggle round trip lands on streak 4 and three toggles land
on streak 3. -/
theorem toggleHabit_same_day_roundtrip_witness :
    (toggleSeq ["2026-10-12", "2026-10-12"] ⟨5, "2026-10-12", true⟩).streak
        = max (5 - 1 : Int) 0 ∧
    (toggleSeq ["2026-10-12", "2026-10-12", "2026-10-12"]
        ⟨5, "2026-10-12", true⟩).streak = max (5 - 2 : Int) 0 := by
  have h := toggleHabit_same_day_roundtrip ⟨5, "2026-10-12", true⟩
    "2026-10-12" rfl rfl
  exact ⟨h.1, h.2.2.1⟩

/-- C3: a single toggle never drives a non-negative streak negative. -/
theorem toggleHabit_streak_nonneg (h : Habit) (d : String)
    (hs : 0 ≤ h.streak) : 0 ≤ (toggleHabit d h).streak := by
  unfold toggleHabit
  by_cases hc : h.checkedToday <;> by_cases hd : h.lastChecked = d <;>
    by_cases hp : h.streak > 0 <;> simp [hc, hd, hp] <;> omega

/-- C3: under every finite sequence of toggles (each evaluated at whatever
local date the client holds at that step) a streak that starts non-negative
stays non-negative; since the dates list is arbitrary, this covers the
state after every intermediate step as well. -/
theorem toggleSeq_streak_nonneg (h : Habit) (hs : 0 ≤ h.streak) :
    ∀ dates : List String, 0 ≤ (toggleSeq dates h).streak := by
  intro dates
  induction dates generalizing h with
  | nil => exact hs
  | cons d rest ih =>
    exact ih (toggleHabit d h) (toggleHabit_streak_nonneg h d hs)

/-- Witness for toggleSeq_streak_nonneg at a concrete habit and a concrete
five-click sequence crossing two dates. -/
theorem toggleSeq_streak_nonneg_witness :
    (0 : Int) ≤ (⟨0, "2026-10-11", true⟩ : Habit).streak ∧
    0 ≤ (toggleSeq ["2026-10-11", "2026-10-11", "2026-10-12", "2026-10-12",
        "2026-10-12"] ⟨0, "2026-10-11", true⟩).streak :=
  ⟨by decide, toggleSeq_streak_nonneg ⟨0, "2026-10-11", true⟩ (by decide) _⟩

/-- Shallow embedding of one evaluation of the seeding effect body in App
(src/app.js lines 1158-1167) for one collection.  The JS guard is
  isAuthReady && !loading && items.length === 0 && userId
and its body issues exactly one addData call with the default record; the
returned number is how many inserts that evaluation performs. -/
def seedInsertCount (isAuthReady loading : Bool) (itemsLength : Nat)
    (hasUser : Bool) : Nat :=
  if isAuthReady && !loading && (itemsLength == 0) && hasUser then 1 else 0

/-- C4: per collection, one evaluation of the seeding effect inserts exactly
one default record when the session is ready and authenticated, the mirror
has finished loading and the item list is empty; it inserts zero records
whenever the collection is non-empty; and it never inserts while the
loading flag is still true. -/
theorem seedInsertCount_spec (isAuthReady loading : Bool) (itemsLength : Nat)
    (hasUser : Bool) :
    (isAuthReady = true → loading = false → itemsLength = 0 → hasUser = true →
      seedInsertCount isAuthReady loading itemsLength hasUser = 1) ∧
    (itemsLength ≠ 0 →
      seedInsertCount isAuthReady loading itemsLength hasUser = 0) ∧
    (loading = true →
      seedInsertCount isAuthReady loading itemsLength hasUser = 0) := by
  refine ⟨?_, ?_, ?_⟩
  · intro h1 h2 h3 h4
    simp [seedInsertCount, h1, h2, h3, h4]
  · intro h
    simp [seedInsertCount, h]
  · intro h
    simp [seedInsertCount, h]

/-- Witness for seedInsertCount_spec: ready, loaded, empty and authenticated
inserts once; a one-element collection and a still-loading mirror insert
nothing. -/
theorem seedInsertCount_spec_witness :
    seedInsertCount true false 0 true = 1 ∧
    seedInsertCount true false 1 true = 0 ∧
    seedInsertCount true true 0 true = 0 := by
  refine ⟨?_, ?_, ?_⟩
  · exact (seedInsertCount_spec true false 0 true).1 rfl rfl rfl rfl
  · exact (seedInsertCount_spec true false 1 true).2.1 (by decide)
  · exact (seedInsertCount_spec true true 0 true).2.2 rfl

/-- Mirror of the task documents handled by src/unnamed/part_000: title,
completed flag and creation timestamp (milliseconds since the epoch, the
value JavaScript produces when a Date participates in subtraction). -/
structure TaskP where
  id : Nat
  title : String
  completed : Bool
  createdAt : Nat
deriving DecidableEq, Repr

/-- Comparator passed to Array.prototype.sort in TaskManagerView
(src/unnamed/part_000 lines 345-346): (b.createdAt || 0) - (a.createdAt || 0);
createdAt is always populated by the snapshot listener, so the || 0 guard
never changes the value. -/
def createdDescCmp (a b : TaskP) : Int :=
  (b.createdAt : Int) - (a.createdAt : Int)

instance : DecidableRel (fun a b => createdDescCmp a b ≤ 0) :=
  fun _ _ => Int.decLe _ _

/-- Stable sort step of the embedding of Array.prototype.sort with the
descending-by-createdAt comparator. -/
def sortByCreatedDesc (ts : List TaskP) : List TaskP :=
  List.insertionSort (fun a b => createdDescCmp a b ≤ 0) ts

/-- Embedding of the pendingTasks derivation of TaskManagerView
(src/unnamed/part_000 line 345): tasks.filter(t => !t.completed).sort(cmp). -/
def pendingTasks (ts : List TaskP) : List TaskP :=
  sortByCreatedDesc (ts.filter fun t => !t.completed)

/-- Embedding of the completedTasks derivation of TaskManagerView
(src/unnamed/part_000 line 346): tasks.filter(t => t.completed).sort(cmp). -/
def completedTasks (ts : List TaskP) : List TaskP :=
  sortByCreatedDesc (ts.filter fun t => t.completed)

/-- C5: pendingTasks is exactly (as a multiset) the tasks with
completed = false and is ordered descending by createdAt, and
completedTasks is exactly the complement with the same ordering. -/
theorem taskLists_spec (ts : List TaskP) :
    (pendingTasks ts).Perm (ts.filter fun t => !t.completed) ∧
    (pendingTasks ts).Pairwise (fun a b => b.createdAt ≤ a.createdAt) ∧
    (completedTasks ts).Perm (ts.filter fun t => t.completed) ∧
    (completedTasks ts).Pairwise (fun a b => b.createdAt ≤ a.createdAt) := by
  haveI htot : IsTotal TaskP (fun a b => createdDescCmp a b ≤ 0) :=
    ⟨fun a b => by unfold createdDescCmp; omega⟩
  haveI htrans : IsTrans TaskP (fun a b => createdDescCmp a b ≤ 0) :=
    ⟨fun a b c hab hbc => by
      unfold createdDescCmp at hab hbc ⊢; omega⟩
  have hsorted : ∀ l : List TaskP,
      (sortByCreatedDesc l).Pairwise (fun a b => b.createdAt ≤ a.createdAt) := by
    intro l
    have := List.sorted_insertionSort (fun a b => createdDescCmp a b ≤ 0) l
    exact this.imp (fun hab => by unfold createdDescCmp at hab; omega)
  exact ⟨List.perm_insertionSort _ _, hsorted _,
    List.perm_insertionSort _ _, hsorted _⟩

/-- Mirror of the task documents handled by the Dashboard in src/app.js:
name, priority (one of four string values) and completed flag. -/
structure TaskA where
  id : Nat
  name : String
  priority : String
  completed : Bool
deriving DecidableEq, Repr

/-- Comparator passed to Array.prototype.sort by the Dashboard
(src/app.js line 758): a.priority === 'Penting - Mendesak' ? -1 : 1. -/
def priorityCmp (a _b : TaskA) : Int :=
  if a.priority = "Penting - Mendesak" then -1 else 1

instance : DecidableRel (fun a b => priorityCmp a b ≤ 0) :=
  fun _ _ => Int.decLe _ _

/-- Embedding of the top3Priorities derivation of the Dashboard
(src/app.js lines 756-759):
tasks.filter(t => !t.completed).sort(priorityCmp).slice(0, 3). -/
def top3Priorities (ts : List TaskA) : List TaskA :=
  (List.insertionSort (fun a b => priorityCmp a b ≤ 0)
    (ts.filter fun t => !t.completed)).take 3

/-- Sorting with the coarse priority comparator never places a task of
another priority before a "Penting - Mendesak" task: inserting one element
preserves the partition shape. -/
theorem pairwise_urgent_orderedInsert (x : TaskA) (l : List TaskA)
    (hl : l.Pairwise (fun a b =>
      b.priority = "Penting - Mendesak" → a.priority = "Penting - Mendesak")) :
    (List.orderedInsert (fun a b => priorityCmp a b ≤ 0) x l).Pairwise
      (fun a b =>
        b.priority = "Penting - Mendesak" → a.priority = "Penting - Mendesak") := by
  induction l with
  | nil => simp
  | cons y l ih =>
    by_cases hxy : priorityCmp x y ≤ 0
    · have hx : x.priority = "Penting - Mendesak" := by
        by_contra hx
        simp [priorityCmp, hx] at hxy
      rw [List.orderedInsert, if_pos hxy]
      exact List.Pairwise.cons (fun z _ _ => hx) hl
    · have hx : ¬x.priority = "Penting - Mendesak" := by
        intro hx
        simp [priorityCmp, hx] at hxy
      rw [List.orderedInsert, if_neg hxy]
      rcases hl with _ | ⟨hy, hl⟩
      refine List.Pairwise.cons ?_ (ih hl)
      intro z hz
      rcases (List.mem_orderedInsert _).mp hz with hzx | hzl
      · subst hzx
        exact fun hzp => absurd hzp hx
      · exact hy z hzl

/-- Coarse-priority sorting yields the partition shape on any input list. -/
theorem pairwise_urgent_insertionSort (l : List TaskA) :
    (List.insertionSort (fun a b => priorityCmp a b ≤ 0) l).Pairwise
      (fun a b =>
        b.priority = "Penting - Mendesak" → a.priority = "Penting - Mendesak") := by
  induction l with
  | nil => simp
  | cons x l ih =>
    rw [List.insertionSort]
    exact pairwise_urgent_orderedInsert x _ ih

/-- C6: the top-priorities list has at most 3 elements, draws only from
tasks with completed = false, and every "Penting - Mendesak" task in it
precedes every task of any other priority (no finer ordering among the
other three priority values is imposed, matching the coarse comparator). -/
theorem top3Priorities_spec (ts : List TaskA) :
    (top3Priorities ts).length ≤ 3 ∧
    (∀ x ∈ top3Priorities ts, x ∈ ts ∧ x.completed = false) ∧
    (top3Priorities ts).Pairwise (fun a b =>
      b.priority = "Penting - Mendesak" → a.priority = "Penting - Mendesak") := by
  refine ⟨List.length_take_le _ _, ?_, ?_⟩
  · intro x hx
    have hx1 : x ∈ List.insertionSort (fun a b => priorityCmp a b ≤ 0)
        (ts.filter fun t => !t.completed) := (List.take_subset _ _) hx
    have hx2 : x ∈ ts.filter fun t => !t.completed :=
      (List.mem_insertionSort _).mp hx1
    have := List.mem_filter.mp hx2
    exact ⟨this.1, by simpa using this.2⟩
  · exact (pairwise_urgent_insertionSort _).sublist (List.take_sublist _ _)

/-- Field values a GenzPlanner document stores: strings, integers, booleans
and timestamps (new Date() serialized by the store). -/
inductive JsVal where
  | str : String → JsVal
  | int : Int → JsVal
  | bool : Bool → JsVal
  | time : Nat → JsVal
deriving DecidableEq, Repr

/-- Document model: a partial map from field names to values, so frame
properties can quantify over every field the payload does not name. -/
def JsObj : Type := String → Option JsVal

/-- Overriding a base object with a list of named fields: the semantics
shared by the JS spread-with-overrides object literal and by the store
merge write (setDoc with merge: true) — fields named in the payload are
written, every other field keeps the base value.  Payload keys here are
distinct, so first-match lookup agrees with last-wins JS literals. -/
def applyFields (base : JsObj) (fields : List (String × JsVal)) : JsObj :=
  fun k =>
    match fields.lookup k with
    | some v => some v
    | none => base k

/-- Shallow embedding of handleSaveReflection (src/unnamed/part_000 lines
234-247): guard "if (!userId || !content || !reflectionsRef) return" (the
empty string is falsy), then setDoc(doc(reflectionsRef, today),
{ content, updatedAt: new Date() }, { merge: true }) on the day's
document. -/
def handleSaveReflection (hasUser hasRef : Bool) (content : String)
    (now : Nat) (d : JsObj) : JsObj :=
  if hasUser = true ∧ content ≠ "" ∧ hasRef = true then
    applyFields d [("content", JsVal.str content), ("updatedAt", JsVal.time now)]
  else
    d

/-- C7: a reflection save writes only the content and updatedAt fields of
the day's document, leaving every other field unchanged, and saving twice
with different contents leaves the document holding the latest content and
timestamp with all unrelated fields still untouched. -/
theorem handleSaveReflection_spec (d : JsObj) (c1 c2 : String) (t1 t2 : Nat)
    (h1 : c1 ≠ "") (h2 : c2 ≠ "") :
    (∀ k, k ≠ "content" → k ≠ "updatedAt" →
      handleSaveReflection true true c1 t1 d k = d k) ∧
    handleSaveReflection true true c1 t1 d "content" = some (JsVal.str c1) ∧
    handleSaveReflection true true c1 t1 d "updatedAt" = some (JsVal.time t1) ∧
    (∀ k, k ≠ "content" → k ≠ "updatedAt" →
      handleSaveReflection true true c2 t2 (handleSaveReflection true true c1 t1 d) k
        = d k) ∧
    handleSaveReflection true true c2 t2 (handleSaveReflection true true c1 t1 d)
      "content" = some (JsVal.str c2) ∧
    handleSaveReflection true true c2 t2 (handleSaveReflection true true c1 t1 d)
      "updatedAt" = some (JsVal.time t2) := by
  have hwrite : ∀ (c : String) (t : Nat) (b : JsObj), c ≠ "" →
      handleSaveReflection true true c t b =
        applyFields b [("content", JsVal.str c), ("updatedAt", JsVal.time t)] := by
    intro c t b hc
    unfold handleSaveReflection
    rw [if_pos ⟨rfl, hc, rfl⟩]
  have hframe : ∀ (c : String) (t : Nat) (b : JsObj) (k : String),
      k ≠ "content" → k ≠ "updatedAt" →
      applyFields b [("content", JsVal.str c), ("updatedAt", JsVal.time t)] k = b k := by
    intro c t b k hk1 hk2
    have e1 : (k == "content") = false := beq_eq_false_iff_ne.mpr hk1
    have e2 : (k == "updatedAt") = false := beq_eq_false_iff_ne.mpr hk2
    simp [applyFields, List.lookup, e1, e2]
  refine ⟨?_, ?_, ?_, ?_, ?_, ?_⟩
  · intro k hk1 hk2
    rw [hwrite c1 t1 d h1]; exact hframe c1 t1 d k hk1 hk2
  · rw [hwrite c1 t1 d h1]; rfl
  · rw [hwrite c1 t1 d h1]; rfl
  · intro k hk1 hk2
    rw [hwrite c2 t2 _ h2, hwrite c1 t1 d h1]
    rw [hframe c2 t2 _ k hk1 hk2]
    exact hframe c1 t1 d k hk1 hk2
  · rw [hwrite c2 t2 _ h2]; rfl
  · rw [hwrite c2 t2 _ h2]; rfl

/-- Witness for handleSaveReflection_spec on a concrete document holding an
unrelated mood field and two successive saves with different contents. -/
theorem handleSaveReflection_spec_witness :
    (handleSaveReflection true true "belajar" 7
        (handleSaveReflection true true "olahraga" 3
          (fun k => if k = "mood" then some (JsVal.str "senang") else none))
        "mood" = some (JsVal.str "senang")) ∧
    (handleSaveReflection true true "belajar" 7
        (handleSaveReflection true true "olahraga" 3
          (fun k => if k = "mood" then some (JsVal.str "senang") else none))
        "content" = some (JsVal.str "belajar")) := by
  have h := handleSaveReflection_spec
    (fun k => if k = "mood" then some (JsVal.str "senang") else none)
    "olahraga" "belajar" 3 7 (by decide) (by decide)
  refine ⟨?_, h.2.2.2.2.1⟩
  have := h.2.2.2.1 "mood" (by decide) (by decide)
  simpa using this

/-- Store operation that one call of the HabitTracker handleSave issues:
either an addHabit of a new record or an updateHabit of an existing id. -/
inductive SaveAction where
  | added : JsObj → SaveAction
  | updated : String → JsObj → SaveAction

/-- Record an action writes to the store. -/
def SaveAction.writtenRecord : SaveAction → JsObj
  | .added r => r
  | .updated _ r => r

/-- Whether the action goes through the add flow. -/
def SaveAction.isAdd : SaveAction → Bool
  | .added _ => true
  | .updated _ _ => false

/-- Shallow embedding of handleSave in HabitTracker (src/app.js lines
505-514): with an editingHabit the form data goes to updateHabit verbatim;
without one, addHabit({ ...data, streak: 0, lastChecked: today,
checkedToday: false }) — the spread of the submitted form data with the
three fields overridden. -/
def habitHandleSave (editingHabit : Option String) (today : String)
    (data : JsObj) : SaveAction :=
  match editingHabit with
  | some id => SaveAction.updated id data
  | none => SaveAction.added (applyFields data
      [("streak", JsVal.int 0), ("lastChecked", JsVal.str today),
        ("checkedToday", JsVal.bool false)])

/-- C10: every habit created through the add flow (editingHabit absent) is
written with streak = 0, checkedToday = false and lastChecked = today,
whatever values the submitted form data carried, and every other submitted
field is passed through unchanged. -/
theorem habitHandleSave_add_spec (data : JsObj) (today : String) :
    (habitHandleSave none today data).isAdd = true ∧
    (habitHandleSave none today data).writtenRecord "streak"
      = some (JsVal.int 0) ∧
    (habitHandleSave none today data).writtenRecord "checkedToday"
      = some (JsVal.bool false) ∧
    (habitHandleSave none today data).writtenRecord "lastChecked"
      = some (JsVal.str today) := by
  refine ⟨rfl, rfl, ?_, ?_⟩ <;> rfl

/-- Observable outcome of one addData call: the remote writes it issues,
the error-log entries it emits, and whether it raises to the caller. -/
structure AddOutcome where
  remoteWrites : List JsObj
  logEntries : List String
  raised : Bool

/-- Shallow embedding of addData in useFirestoreCollection (src/app.js
lines 184-188): "if (!db || !userId) return;" and otherwise one
addDoc(collection(db, path), item).  The guard path emits nothing at all —
no console output, no throw, no write — and the function never touches the
mirror state, which is returned unchanged. -/
def addData (hasDb : Bool) (userId : Option String) (mirror : List JsObj)
    (item : JsObj) : List JsObj × AddOutcome :=
  if hasDb = false ∨ userId = none then
    (mirror, ⟨[], [], false⟩)
  else
    (mirror, ⟨[item], [], false⟩)

/-- Statement of claim C8 as written: with the user identifier or the
database binding absent, addData is a no-op that writes an entry to an
error log and returns without raising, leaving the mirror untouched and
issuing no remote write. -/
def AddDataLogsClaim : Prop :=
  ∀ (hasDb : Bool) (userId : Option String) (mirror : List JsObj)
    (item : JsObj),
    hasDb = false ∨ userId = none →
    (addData hasDb userId mirror item).1 = mirror ∧
    (addData hasDb userId mirror item).2.remoteWrites = [] ∧
    (addData hasDb userId mirror item).2.raised = false ∧
    (addData hasDb userId mirror item).2.logEntries ≠ []

/-- C8 counterexample: at hasDb = false the guard path emits no error-log
entry at all, so the claim as stated is false. -/
theorem addData_logs_counterexample : ¬ AddDataLogsClaim := by
  intro h
  have := (h false none [] (fun _ => none) (Or.inl rfl)).2.2.2
  exact this rfl

/-- C8 amended: with the user identifier or the database binding absent,
addData is a silent no-op — it returns without raising, writes nothing to
the remote store, leaves the mirror untouched, and (contrary to the claim)
emits no error-log entry either. -/
theorem addData_guard_spec (hasDb : Bool) (userId : Option String)
    (mirror : List JsObj) (item : JsObj)
    (habs : hasDb = false ∨ userId = none) :
    (addData hasDb userId mirror item).1 = mirror ∧
    (addData hasDb userId mirror item).2.remoteWrites = [] ∧
    (addData hasDb userId mirror item).2.raised = false ∧
    (addData hasDb userId mirror item).2.logEntries = [] := by
  unfold addData
  rw [if_pos habs]
  exact ⟨rfl, rfl, rfl, rfl⟩

/-- Witness for addData_guard_spec with the database present but the user
identifier absent. -/
theorem addData_guard_spec_witness :
    (addData true none [] (fun _ => none)).2.remoteWrites = [] ∧
    (addData true none [] (fun _ => none)).2.logEntries = [] := by
  have h := addData_guard_spec true none [] (fun _ => none) (Or.inr rfl)
  exact ⟨h.2.1, h.2.2.2⟩

/-- State of one collection mirror's subscription machinery: the listener
ids currently registered with the store for this mirror, the subscription
handle the effect of useFirestoreCollection currently holds (the
unsubscribe closure returned by onSnapshot), and a counter supplying fresh
listener ids.  A snapshot callback can reach a listener only while its id
is registered. -/
structure MirrorSub where
  registered : List Nat
  current : Option Nat
  nextId : Nat
deriving DecidableEq, Repr

/-- Effect body of useFirestoreCollection (src/app.js lines 144-182):
onSnapshot registers a fresh listener and the effect keeps its unsubscribe
closure. -/
def subscribeStep (s : MirrorSub) : MirrorSub :=
  ⟨s.nextId :: s.registered, some s.nextId, s.nextId + 1⟩

/-- Effect cleanup returned by useFirestoreCollection (src/app.js line
181): () => unsubscribe(), which unregisters the held listener. -/
def cleanupStep (s : MirrorSub) : MirrorSub :=
  match s.current with
  | some i => ⟨s.registered.erase i, none, s.nextId⟩
  | none => s

/-- Lifecycle events the host framework delivers to the effect.  React runs
the cleanup of the previous effect invocation before the next body: a
dependency change (new db, userId or collectionName) is cleanup followed by
body, unmount is cleanup alone, and a body runs fresh only when no
subscription is held. -/
inductive HookEvent where
  | rebind
  | unmount
  | remount
deriving DecidableEq, Repr

/-- One lifecycle transition of the mirror's subscription state. -/
def stepEvent (s : MirrorSub) : HookEvent → MirrorSub
  | .rebind => subscribeStep (cleanupStep s)
  | .unmount => cleanupStep s
  | .remount =>
    match s.current with
    | some _ => s
    | none => subscribeStep s

/-- Folding a whole sequence of lifecycle events. -/
def runEvents (events : List HookEvent) (s : MirrorSub) : MirrorSub :=
  events.foldl stepEvent s

/-- Well-formedness of a mirror's subscription state: the registered
listeners are exactly the held subscription, and held ids are below the
fresh counter. -/
def MirrorInv (s : MirrorSub) : Prop :=
  match s.current with
  | some i => s.registered = [i] ∧ i < s.nextId
  | none => s.registered = []

/-- Every lifecycle event preserves well-formedness of the subscription
state. -/
theorem stepEvent_inv (s : MirrorSub) (e : HookEvent) (hs : MirrorInv s) :
    MirrorInv (stepEvent s e) := by
  cases e with
  | rebind =>
    cases hc : s.current with
    | none =>
      have hreg : s.registered = [] := by
        unfold MirrorInv at hs; rw [hc] at hs; exact hs
      simp [stepEvent, cleanupStep, subscribeStep, hc, hreg, MirrorInv]
    | some i =>
      have hreg : s.registered = [i] := by
        unfold MirrorInv at hs; rw [hc] at hs; exact hs.1
      simp [stepEvent, cleanupStep, subscribeStep, hc, hreg, MirrorInv,
        List.erase_cons_head]
  | unmount =>
    cases hc : s.current with
    | none =>
      unfold MirrorInv at hs; rw [hc] at hs
      simp [stepEvent, cleanupStep, hc, MirrorInv, hs]
    | some i =>
      have hreg : s.registered = [i] := by
        unfold MirrorInv at hs; rw [hc] at hs; exact hs.1
      simp [stepEvent, cleanupStep, hc, hreg, MirrorInv, List.erase_cons_head]
  | remount =>
    cases hc : s.current with
    | none =>
      have hreg : s.registered = [] := by
        unfold MirrorInv at hs; rw [hc] at hs; exact hs
      simp [stepEvent, subscribeStep, hc, hreg, MirrorInv]
    | some i =>
      have : stepEvent s HookEvent.remount = s := by simp [stepEvent, hc]
      rw [this]; exact hs

/-- Well-formedness is preserved by every sequence of lifecycle events. -/
theorem runEvents_inv (events : List HookEvent) (s : MirrorSub)
    (hs : MirrorInv s) : MirrorInv (runEvents events s) := by
  induction events generalizing s with
  | nil => exact hs
  | cons e rest ih => exact ih (stepEvent s e) (stepEvent_inv s e hs)

/-- C9: from any well-formed subscription state, (a) after every sequence
of rebinds, unmounts and remounts at most one listener is registered, so at
most one subscription is live per mirror at any time; (b) on a rebind the
held listener is unregistered first — the intermediate state after the
cleanup has no registered listener — and after the rebind completes the old
listener id is no longer registered, so no snapshot callback of the old
subscription can fire again; (c) teardown on unmount likewise leaves the
old listener unregistered. -/
theorem useFirestoreCollection_rebind_spec (s : MirrorSub)
    (hs : MirrorInv s) :
    (∀ events : List HookEvent,
      (runEvents events s).registered.length ≤ 1) ∧
    (∀ i, s.current = some i →
      (cleanupStep s).registered = [] ∧
      i ∉ (stepEvent s HookEvent.rebind).registered ∧
      i ∉ (stepEvent s HookEvent.unmount).registered) := by
  constructor
  · intro events
    have hinv := runEvents_inv events s hs
    unfold MirrorInv at hinv
    cases hc : (runEvents events s).current with
    | none => rw [hc] at hinv; rw [hinv]; simp
    | some i => rw [hc] at hinv; rw [hinv.1]; simp
  · intro i hc
    have hreg : s.registered = [i] ∧ i < s.nextId := by
      unfold MirrorInv at hs; rw [hc] at hs; exact hs
    have hclean : (cleanupStep s).registered = [] := by
      simp [cleanupStep, hc, hreg.1, List.erase_cons_head]
    refine ⟨hclean, ?_, ?_⟩
    · have hcur : (cleanupStep s).nextId = s.nextId := by
        simp [cleanupStep, hc]
      show i ∉ (subscribeStep (cleanupStep s)).registered
      simp [subscribeStep, hclean, hcur]
      omega
    · show i ∉ (cleanupStep s).registered
      rw [hclean]
      simp

/-- Witness for useFirestoreCollection_rebind_spec from the state reached
right after the first subscription, through a concrete rebind and unmount
trace. -/
theorem useFirestoreCollection_rebind_spec_witness :
    (runEvents [HookEvent.rebind, HookEvent.rebind, HookEvent.unmount,
        HookEvent.remount] ⟨[0], some 0, 1⟩).registered.length ≤ 1 ∧
    (0 : Nat) ∉ (stepEvent ⟨[0], some 0, 1⟩ HookEvent.rebind).registered := by
  have h := useFirestoreCollection_rebind_spec ⟨[0], some 0, 1⟩
    (by constructor <;> decide)
  exact ⟨h.1 _, (h.2 0 rfl).2.1⟩

/-- Witness for taskLists_spec on the two-task example of the spec: with
createdAt 20 over 10, the pending list is a permutation of the two pending
tasks and is descending by creation time. -/
theorem taskLists_spec_witness :
    (pendingTasks [⟨1, "tugas satu", false, 10⟩, ⟨2, "tugas dua", false, 20⟩]).Perm
      ([⟨1, "tugas satu", false, 10⟩,
        ⟨2, "tugas dua", false, 20⟩].filter fun t => !t.completed) ∧
    (pendingTasks [⟨1, "tugas satu", false, 10⟩, ⟨2, "tugas dua", false, 20⟩]).Pairwise
      (fun a b => b.createdAt ≤ a.createdAt) :=
  ⟨(taskLists_spec [⟨1, "tugas satu", false, 10⟩, ⟨2, "tugas dua", false, 20⟩]).1,
    (taskLists_spec [⟨1, "tugas satu", false, 10⟩, ⟨2, "tugas dua", false, 20⟩]).2.1⟩

/-- Witness for top3Priorities_spec on a concrete four-task board holding
one completed task and one urgent pending task. -/
theorem top3Priorities_spec_witness :
    (top3Priorities [⟨1, "a", "Penting - Non-mendesak", false⟩,
      ⟨2, "b", "Penting - Mendesak", false⟩,
      ⟨3, "c", "Non-penting - Mendesak", true⟩,
      ⟨4, "d", "Non-penting - Non-mendesak", false⟩]).length ≤ 3 ∧
    (top3Priorities [⟨1, "a", "Penting - Non-mendesak", false⟩,
      ⟨2, "b", "Penting - Mendesak", false⟩,
      ⟨3, "c", "Non-penting - Mendesak", true⟩,
      ⟨4, "d", "Non-penting - Non-mendesak", false⟩]).Pairwise
      (fun a b =>
        b.priority = "Penting - Mendesak" → a.priority = "Penting - Mendesak") :=
  ⟨(top3Priorities_spec _).1, (top3Priorities_spec _).2.2⟩

/-- Witness for habitHandleSave_add_spec on adversarial form data that
submits streak 99, checkedToday true and a stale lastChecked: the written
record still carries 0, false and today. -/
theorem habitHandleSave_add_spec_witness :
    (habitHandleSave none "2026-10-12"
      (applyFields (fun _ => none)
        [("name", JsVal.str "minum air"), ("streak", JsVal.int 99),
          ("checkedToday", JsVal.bool true),
          ("lastChecked", JsVal.str "2020-01-01")])).writtenRecord "streak"
      = some (JsVal.int 0) ∧
    (habitHandleSave none "2026-10-12"
      (applyFields (fun _ => none)
        [("name", JsVal.str "minum air"), ("streak", JsVal.int 99),
          ("checkedToday", JsVal.bool true),
          ("lastChecked", JsVal.str "2020-01-01")])).writtenRecord "checkedToday"
      = some (JsVal.bool false) :=
  ⟨(habitHandleSave_add_spec _ "2026-10-12").2.1,
    (habitHandleSave_add_spec _ "2026-10-12").2.2.1⟩
